import Mathlib

/-!
Shallow embedding of the libcelt7.js wrapper (lib/encoder.js, lib/decoder.js,
lib/utils.js) together with an abstract model of the pieces that live outside
the wrapper source: the emscripten allocator and the opaque CELT 0.7.1 engine
that the wrapper drives through `_celt_mode_create`, `_celt_decoder_create`,
`_celt_encoder_create`, `_celt_decode`/`_celt_decode_float` and the destroy
functions.  JavaScript numbers that the wrapper compares and multiplies are
embedded as `Int`; heap pointers and byte values as `Nat`; thrown JavaScript
errors as an explicit error type returned through `Except`.
-/

/-- JavaScript errors thrown by the wrapper: `new Error(msg)`,
`new TypeError(msg)` and the implicit `ReferenceError` raised when an
undeclared identifier is read. -/
inductive JsErr : Type where
  | error (msg : String)
  | typeError (msg : String)
  | referenceError (msg : String)
deriving DecidableEq

/-- Substring test on strings, used to state that a diagnostic message
references a given word (e.g. the `/channel/` and `/rate/` checks of the
test-suite). -/
def strMentions (needle hay : String) : Bool :=
  (List.range (hay.length + 1)).any (fun i => needle.data.isPrefixOf (hay.data.drop i))

/-- Modelled from the spec: the engine instance's allocator (`_malloc` /
`_free` of the emscripten-compiled CELT library, which the wrapper calls but
which is not part of the wrapper source).  Per the Frame-Adapter contract the
wrapper allocates exactly the requested sizes and frees them again; dlmalloc
style, every successful allocation - a zero-sized one included - yields a
fresh non-null pointer.  `allocated` is the set of live allocations. -/
structure Heap : Type where
  nextPtr : Nat
  allocated : List Nat
deriving DecidableEq

def Heap.malloc (h : Heap) (size : Nat) : Nat × Heap :=
  (h.nextPtr + 1, { nextPtr := h.nextPtr + 1 + size, allocated := (h.nextPtr + 1) :: h.allocated })

def Heap.free (h : Heap) (p : Nat) : Heap :=
  { h with allocated := h.allocated.erase p }

/-- One call crossing the wrapper/engine boundary; the wrapper-side functions
below also return the list of engine calls they perform, in order. -/
inductive EngCall : Type where
  | modeCreate (rate frameSize : Int)
  | decoderCreate (mode : Nat) (channels : Int)
  | encoderCreate (mode : Nat) (channels : Int)
  | modeDestroy (mode : Nat)
  | decoderDestroy (p : Nat)
  | encoderDestroy (p : Nat)
  | decode (decP pData dataLen : Nat)
deriving DecidableEq

/-- Modelled from the spec: the opaque Coder Engine (the emscripten build of
CELT 0.7.1, not part of the wrapper source).  Creation functions return an
opaque handle pointer, `0` on failure (in which case nothing was allocated and
the engine wrote an error code to `p_err`; `errMsg` is that code rendered
through `celt_strerror`, as `utils.stringifyError` does).  `decodeRet` is the
status returned by `_celt_decode`/`_celt_decode_float` for a given decoder
handle, data pointer and pointed-to bytes; `decodeMem` gives the bytes the
engine left in the output PCM region, as a function of the byte offset. -/
structure Engine : Type where
  modeCreate : Int → Int → Nat
  decoderCreate : Nat → Int → Nat
  encoderCreate : Nat → Int → Nat
  errMsg : String
  strerror : Int → String
  decodeRet : Nat → Nat → List Nat → Int
  decodeMem : Nat → Nat → List Nat → Nat → Nat

/-- Native-side state threaded through the wrapper calls: the allocator state
plus the live engine resources (modes and coder handles). -/
structure NativeState : Type where
  heap : Heap
  modes : List Nat
  coders : List Nat
deriving DecidableEq

/-- The options object after `extend` has applied the defaults
`{rate: 48000, frameSize: 256, channels: 1, unsafe: false}`
(the `unsafe` flag is embedded as `isUnsafe`). -/
structure Opts : Type where
  rate : Int := 48000
  frameSize : Int := 256
  channels : Int := 1
  isUnsafe : Bool := false
deriving DecidableEq

/-- A constructed decoder session: the stored configuration fields and the
two native handles `this._mode` and `this._dec_p`. -/
structure DecoderSession : Type where
  rate : Int
  frameSize : Int
  channels : Int
  isUnsafe : Bool
  mode : Nat
  decP : Nat
deriving DecidableEq

/-- A constructed encoder session: the stored configuration fields and the
two native handles `this._mode` and `this._enc_p`. -/
structure EncoderSession : Type where
  rate : Int
  frameSize : Int
  channels : Int
  isUnsafe : Bool
  mode : Nat
  encP : Nat
deriving DecidableEq

/-- The three option checks at the top of the `Decoder` constructor, in
source order: channels, rate range, rate parity. -/
def Decoder.validate (opts : Opts) : Option JsErr :=
  if opts.channels < 1 then
    some (JsErr.error ("channels must be greater than 0"))
  else if opts.rate < 32000 ∨ opts.rate > 96000 then
    some (JsErr.error ("rate must be in range 32000 - 96000"))
  else if ¬ opts.rate % 2 = 0 then
    some (JsErr.error ("rate must be even"))
  else
    none

/-- The three option checks at the top of the `Encoder` constructor; the
source duplicates the `Decoder` checks verbatim. -/
def Encoder.validate (opts : Opts) : Option JsErr :=
  if opts.channels < 1 then
    some (JsErr.error ("channels must be greater than 0"))
  else if opts.rate < 32000 ∨ opts.rate > 96000 then
    some (JsErr.error ("rate must be in range 32000 - 96000"))
  else if ¬ opts.rate % 2 = 0 then
    some (JsErr.error ("rate must be even"))
  else
    none

/-- The `Decoder` constructor after validation: `p_err = _malloc(4)`, then
`_celt_mode_create`, then `_celt_decoder_create`; on a null decoder handle the
created mode is destroyed; in every case the `finally` block frees `p_err`.
The engine-call trace records the create/destroy calls in order. -/
def Decoder.construct (eng : Engine) (opts : Opts) (st : NativeState) :
    Except JsErr DecoderSession × NativeState × List EngCall :=
  match Decoder.validate opts with
  | some err => (Except.error err, st, [])
  | none =>
    let pa := Heap.malloc st.heap 4
    let pErr := pa.1
    let h1 := pa.2
    let mode := eng.modeCreate opts.rate opts.frameSize
    if mode = 0 then
      (Except.error (JsErr.error eng.errMsg),
       { st with heap := Heap.free h1 pErr },
       [EngCall.modeCreate opts.rate opts.frameSize])
    else
      let decP := eng.decoderCreate mode opts.channels
      if decP = 0 then
        (Except.error (JsErr.error eng.errMsg),
         { st with heap := Heap.free h1 pErr, modes := (mode :: st.modes).erase mode },
         [EngCall.modeCreate opts.rate opts.frameSize,
          EngCall.decoderCreate mode opts.channels,
          EngCall.modeDestroy mode])
      else
        (Except.ok { rate := opts.rate, frameSize := opts.frameSize,
                     channels := opts.channels, isUnsafe := opts.isUnsafe,
                     mode := mode, decP := decP },
         { st with heap := Heap.free h1 pErr, modes := mode :: st.modes,
                   coders := decP :: st.coders },
         [EngCall.modeCreate opts.rate opts.frameSize,
          EngCall.decoderCreate mode opts.channels])

/-- The `Encoder` constructor after validation, same shape as
`Decoder.construct` with `_celt_encoder_create`. -/
def Encoder.construct (eng : Engine) (opts : Opts) (st : NativeState) :
    Except JsErr EncoderSession × NativeState × List EngCall :=
  match Encoder.validate opts with
  | some err => (Except.error err, st, [])
  | none =>
    let pa := Heap.malloc st.heap 4
    let pErr := pa.1
    let h1 := pa.2
    let mode := eng.modeCreate opts.rate opts.frameSize
    if mode = 0 then
      (Except.error (JsErr.error eng.errMsg),
       { st with heap := Heap.free h1 pErr },
       [EngCall.modeCreate opts.rate opts.frameSize])
    else
      let encP := eng.encoderCreate mode opts.channels
      if encP = 0 then
        (Except.error (JsErr.error eng.errMsg),
         { st with heap := Heap.free h1 pErr, modes := (mode :: st.modes).erase mode },
         [EngCall.modeCreate opts.rate opts.frameSize,
          EngCall.encoderCreate mode opts.channels,
          EngCall.modeDestroy mode])
      else
        (Except.ok { rate := opts.rate, frameSize := opts.frameSize,
                     channels := opts.channels, isUnsafe := opts.isUnsafe,
                     mode := mode, encP := encP },
         { st with heap := Heap.free h1 pErr, modes := mode :: st.modes,
                   coders := encP :: st.coders },
         [EngCall.modeCreate opts.rate opts.frameSize,
          EngCall.encoderCreate mode opts.channels])

/-- Embedding of `Decoder.prototype.destroy`: only in unsafe mode does it call
`_celt_decoder_destroy` and `_celt_mode_destroy`; the body cannot throw and
never reassigns the session fields. -/
def Decoder.destroy (d : DecoderSession) (st : NativeState) :
    DecoderSession × NativeState × List EngCall :=
  if d.isUnsafe then
    (d, { st with coders := st.coders.erase d.decP, modes := st.modes.erase d.mode },
     [EngCall.decoderDestroy d.decP, EngCall.modeDestroy d.mode])
  else
    (d, st, [])

/-- Embedding of `Encoder.prototype.destroy`: only in unsafe mode does it call
`_celt_encoder_destroy` and `_celt_mode_destroy`. -/
def Encoder.destroy (e : EncoderSession) (st : NativeState) :
    EncoderSession × NativeState × List EngCall :=
  if e.isUnsafe then
    (e, { st with coders := st.coders.erase e.encP, modes := st.modes.erase e.mode },
     [EngCall.encoderDestroy e.encP, EngCall.modeDestroy e.mode])
  else
    (e, st, [])

/-- The `data` argument of `Decoder.prototype._decode`: `null`, a `Buffer`
(its bytes), or any other JavaScript value. -/
inductive DecData : Type where
  | null
  | buffer (bytes : List Nat)
  | other

/-- Reinterpret consecutive little-endian byte pairs as signed 16-bit
samples, as `new Int16Array(arrayBuffer)` does. -/
def toSigned16 (w : Nat) : Int :=
  if w % 65536 < 32768 then ((w % 65536 : Nat) : Int) else ((w % 65536 : Nat) : Int) - 65536

def bytesToInt16 : List Nat → List Int
  | b0 :: b1 :: rest => toSigned16 (b0 + 256 * b1) :: bytesToInt16 rest
  | _ => []

/-- Reinterpret consecutive little-endian byte quadruples as raw 32-bit
words, as `new Float32Array(arrayBuffer)` does; the wrapper performs no
arithmetic on the samples, so the float bit patterns are kept as words. -/
def bytesToWords32 : List Nat → List Nat
  | b0 :: b1 :: b2 :: b3 :: rest =>
      (b0 + 256 * b1 + 65536 * b2 + 16777216 * b3) :: bytesToWords32 rest
  | _ => []

/-- Embedding of `Decoder.prototype._decode`: allocate `pcmSize = frameSize * bps *
channels` bytes for the output; `null` is passed to the engine as
`(p_data, data_len) = (0, 0)`, a `Buffer` is copied into a fresh allocation
of its length (a zero-length `Buffer` included), anything else throws
`TypeError` before any engine call; a negative engine status is rethrown via
`celt_strerror`; on success the wrapper slices exactly `pcmSize` bytes at
`p_pcm`; the `finally` block frees `p_data` (when non-null) and `p_pcm` on
every path. -/
def Decoder.decodeRaw (d : DecoderSession) (eng : Engine) (st : NativeState)
    (data : DecData) (bps : Nat) :
    Except JsErr (List Nat) × NativeState × List EngCall :=
  let pcmSize : Nat := (d.frameSize * (bps : Int) * d.channels).toNat
  let pcmAlloc := Heap.malloc st.heap pcmSize
  let pPcm := pcmAlloc.1
  let h1 := pcmAlloc.2
  match data with
  | DecData.null =>
    let ret := eng.decodeRet d.decP 0 []
    if ret < 0 then
      (Except.error (JsErr.error (eng.strerror ret)),
       { st with heap := Heap.free h1 pPcm }, [EngCall.decode d.decP 0 0])
    else
      (Except.ok ((List.range pcmSize).map (eng.decodeMem d.decP 0 [])),
       { st with heap := Heap.free h1 pPcm }, [EngCall.decode d.decP 0 0])
  | DecData.buffer bytes =>
    let dataAlloc := Heap.malloc h1 bytes.length
    let pData := dataAlloc.1
    let h2 := dataAlloc.2
    let ret := eng.decodeRet d.decP pData bytes
    if ret < 0 then
      (Except.error (JsErr.error (eng.strerror ret)),
       { st with heap := Heap.free (Heap.free h2 pData) pPcm },
       [EngCall.decode d.decP pData bytes.length])
    else
      (Except.ok ((List.range pcmSize).map (eng.decodeMem d.decP pData bytes)),
       { st with heap := Heap.free (Heap.free h2 pData) pPcm },
       [EngCall.decode d.decP pData bytes.length])
  | DecData.other =>
    (Except.error (JsErr.typeError ("data must be Buffer or null")),
     { st with heap := Heap.free h1 pPcm }, [])

/-- Embedding of `Decoder.prototype.decodeInt16`: `_decode` with 2 bytes per sample and
the result viewed as an `Int16Array`. -/
def Decoder.decodeInt16 (d : DecoderSession) (eng : Engine) (st : NativeState)
    (data : DecData) :
    Except JsErr (List Int) × NativeState × List EngCall :=
  let r := Decoder.decodeRaw d eng st data 2
  (r.1.map bytesToInt16, r.2.1, r.2.2)

/-- Embedding of `Decoder.prototype.decodeFloat32`: `_decode` with 4 bytes per sample and
the result viewed as a `Float32Array` (raw 32-bit words here). -/
def Decoder.decodeFloat32 (d : DecoderSession) (eng : Engine) (st : NativeState)
    (data : DecData) :
    Except JsErr (List Nat) × NativeState × List EngCall :=
  let r := Decoder.decodeRaw d eng st data 4
  (r.1.map bytesToWords32, r.2.1, r.2.2)

/-- The `pcm` argument of `Encoder.prototype.encode`: an `Int16Array`, a
`Float32Array` (samples kept as raw 32-bit words), or any other value with a
`length` property. -/
inductive PcmInput : Type where
  | int16 (samples : List Int)
  | float32 (words : List Nat)
  | other (length : Nat)

def PcmInput.len : PcmInput → Nat
  | PcmInput.int16 samples => samples.length
  | PcmInput.float32 words => words.length
  | PcmInput.other n => n

/-- Embedding of `Encoder.prototype.encode`.  The length check runs first; then the
`Float32Array` branch, the `Int16Array` branch, or the `TypeError`.  Both
typed-array branches copy the samples into a fresh allocation and then
evaluate `this._lib._malloc(compressedSize)` - but the function is declared
as `function(pcm)` and `compressedSize` is declared nowhere, so reading it
throws `ReferenceError: compressedSize is not defined` and the `finally`
block frees the sample allocation; the engine is never called.  The second
argument the callers and the documentation pass is bound to nothing and is
ignored. -/
def Encoder.encode (s : EncoderSession) (eng : Engine) (st : NativeState)
    (pcm : PcmInput) (targetPacketSize : Int) :
    Except JsErr (List Nat) × NativeState × List EngCall :=
  if (pcm.len : Int) ≠ s.frameSize * s.channels then
    (Except.error (JsErr.error ("frames must be exactly of size frameSize * channels")),
     st, [])
  else
    match pcm with
    | PcmInput.float32 words =>
      let pcmAlloc := Heap.malloc st.heap (words.length * 4)
      (Except.error (JsErr.referenceError ("compressedSize is not defined")),
       { st with heap := Heap.free pcmAlloc.2 pcmAlloc.1 }, [])
    | PcmInput.int16 samples =>
      let pcmAlloc := Heap.malloc st.heap (samples.length * 2)
      (Except.error (JsErr.referenceError ("compressedSize is not defined")),
       { st with heap := Heap.free pcmAlloc.2 pcmAlloc.1 }, [])
    | PcmInput.other _ =>
      (Except.error (JsErr.typeError ("pcm must be Int16Array or Float32Array")),
       st, [])

/-- Embedding of `DecoderStream.prototype._transform` in `Int16` mode: the inbound
`Buffer` chunk is handed unchanged to `decoder.decodeInt16` and the decoded
samples become the one emitted chunk; an empty inbound chunk is therefore
passed on as a zero-length `Buffer`. -/
def DecoderStream.transformOne (d : DecoderSession) (eng : Engine)
    (st : NativeState) (chunk : List Nat) :
    Except JsErr (List Int) × NativeState × List EngCall :=
  Decoder.decodeInt16 d eng st (DecData.buffer chunk)

/-- The chunk loop shared by `EncoderStream.prototype._transform` and
`DecoderStream.prototype._transform`: each inbound chunk triggers exactly one
session operation inside `try`; on success `callback(null, result)` emits the
one derived chunk and processing continues with the next chunk, on failure
`callback(err)` surfaces the error and the stream stops. -/
def runTransform {α β : Type} (op : α → Except JsErr β) :
    List α → List β × Option JsErr
  | [] => ([], none)
  | c :: cs =>
    match op c with
    | Except.error err => ([], some err)
    | Except.ok r =>
      let rest := runTransform op cs
      (r :: rest.1, rest.2)

/-- A fresh native state: empty heap, no live engine resources. -/
def demoState : NativeState := { heap := { nextPtr := 0, allocated := [] }, modes := [], coders := [] }

/-- An engine model on which every creation succeeds and every decode call
returns status 0 and all-zero output bytes. -/
def demoEngine : Engine :=
  { modeCreate := fun _ _ => 1
  , decoderCreate := fun _ _ => 2
  , encoderCreate := fun _ _ => 2
  , errMsg := ("engine failure")
  , strerror := fun _ => ("engine failure")
  , decodeRet := fun _ _ _ => 0
  , decodeMem := fun _ _ _ _ => 0 }

/-- An engine model on which mode creation succeeds (handle 7) but both
coder-handle creations fail (return 0). -/
def failEngine : Engine :=
  { modeCreate := fun _ _ => 7
  , decoderCreate := fun _ _ => 0
  , encoderCreate := fun _ _ => 0
  , errMsg := ("engine failure")
  , strerror := fun _ => ("engine failure")
  , decodeRet := fun _ _ _ => 0
  , decodeMem := fun _ _ _ _ => 0 }

/-- The decoder of the spec scenarios: rate 48000, frameSize 256, one
channel, safe mode. -/
def demoDecoder : DecoderSession :=
  { rate := 48000, frameSize := 256, channels := 1, isUnsafe := false, mode := 1, decP := 2 }

/-- A small decoder session (frameSize 2) keeping concrete evaluations
cheap. -/
def smallDecoder : DecoderSession :=
  { rate := 48000, frameSize := 2, channels := 1, isUnsafe := false, mode := 1, decP := 2 }

/-- The encoder of the spec scenarios: rate 48000, frameSize 256, one
channel, safe mode. -/
def demoEncoder : EncoderSession :=
  { rate := 48000, frameSize := 256, channels := 1, isUnsafe := false, mode := 1, encP := 2 }

/-- Options with an invalid channel count and an invalid rate at once. -/
def optsBadBoth : Opts := { rate := 31999, frameSize := 256, channels := 0, isUnsafe := false }

/-- Options with valid channels and an invalid (odd, out-of-range) rate. -/
def optsBadRate : Opts := { rate := 31999, frameSize := 256, channels := 1, isUnsafe := false }

/-- Options with an invalid channel count and a valid rate. -/
def optsBadChannels : Opts := { rate := 48000, frameSize := 256, channels := 0, isUnsafe := false }

/-- Fully valid default options. -/
def optsGood : Opts := { rate := 48000, frameSize := 256, channels := 1, isUnsafe := false }

/-- Valid channels and rate but a negative frameSize, which the wrapper does
not inspect. -/
def optsOddFrameSize : Opts := { rate := 48000, frameSize := -7, channels := 1, isUnsafe := false }

/-- The session operation a decoder stream in `Int16` mode performs on each
chunk, over the all-zero demo engine and a small session. -/
def demoStreamOp (chunk : List Nat) : Except JsErr (List Int) :=
  (DecoderStream.transformOne smallDecoder demoEngine demoState chunk).1

theorem bytesToInt16_length : (l : List Nat) → (bytesToInt16 l).length = l.length / 2
  | [] => rfl
  | [_] => by simp only [bytesToInt16, List.length_nil, List.length_cons]
  | _ :: _ :: rest => by
    simp only [bytesToInt16, List.length_cons, bytesToInt16_length rest]
    omega

theorem bytesToWords32_length : (l : List Nat) → (bytesToWords32 l).length = l.length / 4
  | [] => rfl
  | [_] => by simp only [bytesToWords32, List.length_nil, List.length_cons]
  | [_, _] => by simp only [bytesToWords32, List.length_nil, List.length_cons]
  | [_, _, _] => by simp only [bytesToWords32, List.length_nil, List.length_cons]
  | _ :: _ :: _ :: _ :: rest => by
    simp only [bytesToWords32, List.length_cons, bytesToWords32_length rest]
    omega

/-- C4: `Encoder.prototype.encode` checks the frame length first: any `pcm`
whose length differs from `frameSize * channels` (the zero-length frame
included, and regardless of whether the frame is an `Int16Array`, a
`Float32Array` or anything else) makes `encode` throw the SizeError
`frames must be exactly of size frameSize * channels` before any engine call
and before any allocation. -/
theorem encode_rejects_wrong_frame_length (s : EncoderSession) (eng : Engine)
    (st : NativeState) (pcm : PcmInput) (targetPacketSize : Int)
    (h : (pcm.len : Int) ≠ s.frameSize * s.channels) :
    Encoder.encode s eng st pcm targetPacketSize
      = (Except.error (JsErr.error ("frames must be exactly of size frameSize * channels")),
         st, []) := by
  simp only [Encoder.encode, if_pos h]

/-- C4 witness: the default-configuration encoder rejects a zero-length
`Int16Array` and a zero-length `Float32Array`. -/
theorem encode_rejects_wrong_frame_length_witness :
    ((PcmInput.len (PcmInput.int16 []) : Int) ≠ demoEncoder.frameSize * demoEncoder.channels
      ∧ Encoder.encode demoEncoder demoEngine demoState (PcmInput.int16 []) 960
          = (Except.error (JsErr.error ("frames must be exactly of size frameSize * channels")),
             demoState, []))
    ∧ ((PcmInput.len (PcmInput.float32 []) : Int) ≠ demoEncoder.frameSize * demoEncoder.channels
      ∧ Encoder.encode demoEncoder demoEngine demoState (PcmInput.float32 []) 960
          = (Except.error (JsErr.error ("frames must be exactly of size frameSize * channels")),
             demoState, [])) :=
  ⟨⟨by decide,
    encode_rejects_wrong_frame_length demoEncoder demoEngine demoState
      (PcmInput.int16 []) 960 (by decide)⟩,
   ⟨by decide,
    encode_rejects_wrong_frame_length demoEncoder demoEngine demoState
      (PcmInput.float32 []) 960 (by decide)⟩⟩

set_option maxRecDepth 4000 in
/-- C1: with the spec-scenario configuration (rate 48000, frameSize 256, one
channel), `encode` on a frame of 256 zero Int16 samples with target packet
size 960 does not return a packet at all: the function's parameter list omits
`compressedSize`, so the body's read of it throws
`ReferenceError: compressedSize is not defined` on every valid frame. -/
theorem encode_valid_frame_throws_reference_error :
    (Encoder.encode demoEncoder demoEngine demoState
        (PcmInput.int16 (List.replicate 256 0)) 960).1
      = Except.error (JsErr.referenceError ("compressedSize is not defined")) := by
  have hlen : (PcmInput.len (PcmInput.int16 (List.replicate 256 0)) : Int)
      = demoEncoder.frameSize * demoEncoder.channels := by
    simp [PcmInput.len, demoEncoder]
  simp only [Encoder.encode, hlen, ne_eq, not_true_eq_false, if_false]

/-- C8: `destroy()` on a safe-mode (`unsafe: false`) session is a silent
no-op for both coders: no engine destruction is invoked, the body cannot
throw, and the session record and native state are returned unchanged. -/
theorem destroy_noop_in_safe_mode (d : DecoderSession) (e : EncoderSession)
    (st : NativeState) (hd : d.isUnsafe = false) (he : e.isUnsafe = false) :
    Decoder.destroy d st = (d, st, []) ∧ Encoder.destroy e st = (e, st, []) := by
  constructor
  · simp only [Decoder.destroy, hd, Bool.false_eq_true, if_false]
  · simp only [Encoder.destroy, he, Bool.false_eq_true, if_false]

/-- C8 witness: destroying the safe-mode demo sessions changes nothing. -/
theorem destroy_noop_in_safe_mode_witness :
    demoDecoder.isUnsafe = false ∧ demoEncoder.isUnsafe = false
    ∧ (Decoder.destroy demoDecoder demoState = (demoDecoder, demoState, [])
       ∧ Encoder.destroy demoEncoder demoState = (demoEncoder, demoState, [])) :=
  ⟨by decide, by decide,
   destroy_noop_in_safe_mode demoDecoder demoEncoder demoState (by decide) (by decide)⟩

/-- C9: passing a value that is neither a `Buffer` nor `null` to
`decodeInt16` or `decodeFloat32` throws
`TypeError: data must be Buffer or null` without any engine call, and the PCM
allocation made before the check is freed by the `finally` block, leaving the
set of live allocations unchanged. -/
theorem decode_rejects_non_buffer (d : DecoderSession) (eng : Engine)
    (st : NativeState) :
    ((Decoder.decodeInt16 d eng st DecData.other).1
        = Except.error (JsErr.typeError ("data must be Buffer or null"))
      ∧ (Decoder.decodeInt16 d eng st DecData.other).2.1.heap.allocated
          = st.heap.allocated
      ∧ (Decoder.decodeInt16 d eng st DecData.other).2.2 = [])
    ∧ ((Decoder.decodeFloat32 d eng st DecData.other).1
        = Except.error (JsErr.typeError ("data must be Buffer or null"))
      ∧ (Decoder.decodeFloat32 d eng st DecData.other).2.1.heap.allocated
          = st.heap.allocated
      ∧ (Decoder.decodeFloat32 d eng st DecData.other).2.2 = []) := by
  refine ⟨⟨rfl, ?_, rfl⟩, ⟨rfl, ?_, rfl⟩⟩ <;>
    simp [Decoder.decodeInt16, Decoder.decodeFloat32, Decoder.decodeRaw,
      Heap.malloc, Heap.free]

theorem pcm16_length (a c : Int) : (a * ((2 : Nat) : Int) * c).toNat / 2 = (a * c).toNat := by
  have h2 : a * ((2 : Nat) : Int) * c = 2 * (a * c) := by
    push_cast
    ring
  rw [h2]
  omega

theorem pcm32_length (a c : Int) : (a * ((4 : Nat) : Int) * c).toNat / 4 = (a * c).toNat := by
  have h4 : a * ((4 : Nat) : Int) * c = 4 * (a * c) := by
    push_cast
    ring
  rw [h4]
  omega

/-- C5: decoding a Loss Signal (`data = null`): when the engine reports
success on the null-data call, both `decodeInt16` and `decodeFloat32` return
a frame of exactly `frameSize * channels` samples and do not fail. -/
theorem decode_loss_signal_lengths (d : DecoderSession) (eng : Engine)
    (st : NativeState) (h : 0 ≤ eng.decodeRet d.decP 0 []) :
    (∃ l, (Decoder.decodeInt16 d eng st DecData.null).1 = Except.ok l
        ∧ l.length = (d.frameSize * d.channels).toNat)
    ∧ ∃ l, (Decoder.decodeFloat32 d eng st DecData.null).1 = Except.ok l
        ∧ l.length = (d.frameSize * d.channels).toNat := by
  constructor
  · refine ⟨bytesToInt16 ((List.range ((d.frameSize * ((2 : Nat) : Int) * d.channels).toNat)).map
        (eng.decodeMem d.decP 0 [])), ?_, ?_⟩
    · simp only [Decoder.decodeInt16, Decoder.decodeRaw]
      rw [if_neg (by omega)]
      rfl
    · rw [bytesToInt16_length, List.length_map, List.length_range, pcm16_length]
  · refine ⟨bytesToWords32 ((List.range ((d.frameSize * ((4 : Nat) : Int) * d.channels).toNat)).map
        (eng.decodeMem d.decP 0 [])), ?_, ?_⟩
    · simp only [Decoder.decodeFloat32, Decoder.decodeRaw]
      rw [if_neg (by omega)]
      rfl
    · rw [bytesToWords32_length, List.length_map, List.length_range, pcm32_length]

/-- C5 witness: over the always-succeeding demo engine, the
spec-configuration decoder turns a Loss Signal into 256 samples in both
representations. -/
theorem decode_loss_signal_lengths_witness :
    0 ≤ demoEngine.decodeRet demoDecoder.decP 0 []
    ∧ ((∃ l, (Decoder.decodeInt16 demoDecoder demoEngine demoState DecData.null).1 = Except.ok l
          ∧ l.length = (demoDecoder.frameSize * demoDecoder.channels).toNat)
      ∧ ∃ l, (Decoder.decodeFloat32 demoDecoder demoEngine demoState DecData.null).1 = Except.ok l
          ∧ l.length = (demoDecoder.frameSize * demoDecoder.channels).toNat) :=
  ⟨by decide,
   decode_loss_signal_lengths demoDecoder demoEngine demoState (by decide)⟩

/-- C2 counterexample: an empty inbound chunk is NOT presented to the decode
operation the same way as passing `null`: the stream's empty `Buffer` reaches
the engine as a fresh non-null `_malloc(0)` pointer with `data_len = 0`,
while `null` reaches it as the null pointer, so the two engine-call traces
differ on the same session and state. -/
theorem decoder_stream_empty_chunk_counterexample :
    (DecoderStream.transformOne smallDecoder demoEngine demoState []).2.2
      ≠ (Decoder.decodeInt16 smallDecoder demoEngine demoState DecData.null).2.2 := by
  decide

/-- C2 (amended): writing an empty inbound chunk to the decoder stream makes
exactly one engine decode call with `data_len = 0` but a non-null data
pointer (not the null Loss Signal pointer of `decodeInt16(null)`); provided
the engine reports success on such a zero-length-packet call, one output
chunk of `frameSize * channels` decoded samples is emitted without error. -/
theorem decoder_stream_empty_chunk (d : DecoderSession) (eng : Engine)
    (st : NativeState) (h : ∀ p, p ≠ 0 → 0 ≤ eng.decodeRet d.decP p []) :
    ∃ p, p ≠ 0
      ∧ (DecoderStream.transformOne d eng st []).2.2 = [EngCall.decode d.decP p 0]
      ∧ ∃ l, (DecoderStream.transformOne d eng st []).1 = Except.ok l
          ∧ l.length = (d.frameSize * d.channels).toNat := by
  refine ⟨st.heap.nextPtr + 1 + (d.frameSize * ((2 : Nat) : Int) * d.channels).toNat + 1,
    by omega, ?_, ?_⟩
  · simp only [DecoderStream.transformOne, Decoder.decodeInt16, Decoder.decodeRaw,
      Heap.malloc, List.length_nil]
    rw [if_neg (by have := h _ (by omega : st.heap.nextPtr + 1
      + (d.frameSize * ((2 : Nat) : Int) * d.channels).toNat + 1 ≠ 0); omega)]
  · refine ⟨bytesToInt16 ((List.range ((d.frameSize * ((2 : Nat) : Int) * d.channels).toNat)).map
      (eng.decodeMem d.decP (st.heap.nextPtr + 1
        + (d.frameSize * ((2 : Nat) : Int) * d.channels).toNat + 1) [])), ?_, ?_⟩
    · simp only [DecoderStream.transformOne, Decoder.decodeInt16, Decoder.decodeRaw,
        Heap.malloc, List.length_nil]
      rw [if_neg (by have := h _ (by omega : st.heap.nextPtr + 1
        + (d.frameSize * ((2 : Nat) : Int) * d.channels).toNat + 1 ≠ 0); omega)]
      rfl
    · rw [bytesToInt16_length, List.length_map, List.length_range, pcm16_length]

/-- C2 witness: over an engine succeeding on every non-null call, the demo
decoder stream turns the empty chunk into one full frame of samples. -/
theorem decoder_stream_empty_chunk_witness :
    (∀ p, p ≠ 0 → 0 ≤ demoEngine.decodeRet smallDecoder.decP p [])
    ∧ ∃ p, p ≠ 0
      ∧ (DecoderStream.transformOne smallDecoder demoEngine demoState []).2.2
          = [EngCall.decode smallDecoder.decP p 0]
      ∧ ∃ l, (DecoderStream.transformOne smallDecoder demoEngine demoState []).1 = Except.ok l
          ∧ l.length = (smallDecoder.frameSize * smallDecoder.channels).toNat :=
  ⟨fun p hp => by simp [demoEngine],
   decoder_stream_empty_chunk smallDecoder demoEngine demoState (fun p hp => by simp [demoEngine])⟩

/-- C3 counterexample: for the options `{channels: 0, rate: 31999}` the rate
is outside the allowed range and odd, yet construction fails with the error
`channels must be greater than 0`, whose message does not reference `rate`:
the channels check runs first, so the claim's rate clause is false as
stated. -/
theorem config_rate_clause_counterexample :
    Decoder.construct demoEngine optsBadBoth demoState
      = (Except.error (JsErr.error ("channels must be greater than 0")), demoState, [])
    ∧ strMentions ("rate") ("channels must be greater than 0") = false :=
  ⟨rfl, by decide⟩

/-- C3 (amended): construction checks channels first: whenever channels < 1
it fails with the error `channels must be greater than 0` (whose message
references `channels`), even if the rate is also invalid; whenever
channels ≥ 1 and the rate is outside [32000, 96000] or odd, it fails with an
error whose message references `rate`; for channels ≥ 1 and an even rate in
[32000, 96000] no configuration error is raised - for both `Encoder` and
`Decoder`. -/
theorem config_validation (opts : Opts) :
    (opts.channels < 1 →
      Decoder.validate opts = some (JsErr.error ("channels must be greater than 0"))
      ∧ Encoder.validate opts = some (JsErr.error ("channels must be greater than 0"))
      ∧ strMentions ("channels") ("channels must be greater than 0") = true)
    ∧ (1 ≤ opts.channels →
        (opts.rate < 32000 ∨ opts.rate > 96000 ∨ ¬ opts.rate % 2 = 0) →
        ∃ m, Decoder.validate opts = some (JsErr.error m)
          ∧ Encoder.validate opts = some (JsErr.error m)
          ∧ strMentions ("rate") m = true)
    ∧ (1 ≤ opts.channels → 32000 ≤ opts.rate → opts.rate ≤ 96000 →
        opts.rate % 2 = 0 →
        Decoder.validate opts = none ∧ Encoder.validate opts = none) := by
  refine ⟨?_, ?_, ?_⟩
  · intro h
    unfold Decoder.validate Encoder.validate
    rw [if_pos h]
    exact ⟨rfl, rfl, by decide⟩
  · intro hc hbad
    unfold Decoder.validate Encoder.validate
    rw [if_neg (show ¬ opts.channels < 1 by omega)]
    by_cases hr : opts.rate < 32000 ∨ opts.rate > 96000
    · rw [if_pos hr]
      exact ⟨("rate must be in range 32000 - 96000"), rfl, rfl, by decide⟩
    · have hodd : ¬ opts.rate % 2 = 0 := by
        rcases hbad with h1 | h2 | h3
        · exact absurd (Or.inl h1) hr
        · exact absurd (Or.inr h2) hr
        · exact h3
      rw [if_neg hr, if_pos hodd]
      exact ⟨("rate must be even"), rfl, rfl, by decide⟩
  · intro hc h1 h2 h3
    unfold Decoder.validate Encoder.validate
    rw [if_neg (show ¬ opts.channels < 1 by omega),
      if_neg (show ¬ (opts.rate < 32000 ∨ opts.rate > 96000) by omega),
      if_neg (fun hn => hn h3)]
    exact ⟨rfl, rfl⟩

/-- C3 witness: the three clauses at concrete options: channels 0 with a
valid rate, channels 1 with rate 31999, and the valid defaults. -/
theorem config_validation_witness :
    (optsBadChannels.channels < 1
      ∧ (Decoder.validate optsBadChannels
            = some (JsErr.error ("channels must be greater than 0"))
        ∧ Encoder.validate optsBadChannels
            = some (JsErr.error ("channels must be greater than 0"))
        ∧ strMentions ("channels") ("channels must be greater than 0") = true))
    ∧ (∃ m, Decoder.validate optsBadRate = some (JsErr.error m)
        ∧ Encoder.validate optsBadRate = some (JsErr.error m)
        ∧ strMentions ("rate") m = true)
    ∧ (Decoder.validate optsGood = none ∧ Encoder.validate optsGood = none) :=
  ⟨⟨by decide, (config_validation optsBadChannels).1 (by decide)⟩,
   (config_validation optsBadRate).2.1 (by decide) (Or.inl (by decide)),
   (config_validation optsGood).2.2 (by decide) (by decide) (by decide) (by decide)⟩

/-- C6: when mode creation succeeds but coder-handle creation returns the
null handle, both constructors throw an error carrying the engine's
diagnostic, and before it propagates the created mode is destroyed
(`_celt_mode_destroy`) and the error-code allocation is freed by the
`finally` block: live allocations, live modes and live coder handles are all
left exactly as before the construction attempt. -/
theorem construct_cleanup_on_handle_failure (eng : Engine) (opts : Opts)
    (st : NativeState)
    (hvD : Decoder.validate opts = none) (hvE : Encoder.validate opts = none)
    (hm : ¬ eng.modeCreate opts.rate opts.frameSize = 0)
    (hd : eng.decoderCreate (eng.modeCreate opts.rate opts.frameSize) opts.channels = 0)
    (he : eng.encoderCreate (eng.modeCreate opts.rate opts.frameSize) opts.channels = 0) :
    ((Decoder.construct eng opts st).1 = Except.error (JsErr.error eng.errMsg)
      ∧ (Decoder.construct eng opts st).2.1.heap.allocated = st.heap.allocated
      ∧ (Decoder.construct eng opts st).2.1.modes = st.modes
      ∧ (Decoder.construct eng opts st).2.1.coders = st.coders)
    ∧ ((Encoder.construct eng opts st).1 = Except.error (JsErr.error eng.errMsg)
      ∧ (Encoder.construct eng opts st).2.1.heap.allocated = st.heap.allocated
      ∧ (Encoder.construct eng opts st).2.1.modes = st.modes
      ∧ (Encoder.construct eng opts st).2.1.coders = st.coders) := by
  refine ⟨⟨?_, ?_, ?_, ?_⟩, ⟨?_, ?_, ?_, ?_⟩⟩ <;>
    simp [Decoder.construct, Encoder.construct, hvD, hvE, hm, hd, he,
      Heap.malloc, Heap.free, List.erase_cons_head]

/-- C6 witness: over the engine whose coder-handle creations fail after a
successful mode creation, constructing with the default options from the
fresh state yields the engine diagnostic and leaves no live resource. -/
theorem construct_cleanup_on_handle_failure_witness :
    Decoder.validate optsGood = none ∧ Encoder.validate optsGood = none
    ∧ ¬ failEngine.modeCreate optsGood.rate optsGood.frameSize = 0
    ∧ failEngine.decoderCreate (failEngine.modeCreate optsGood.rate optsGood.frameSize) optsGood.channels = 0
    ∧ failEngine.encoderCreate (failEngine.modeCreate optsGood.rate optsGood.frameSize) optsGood.channels = 0
    ∧ (((Decoder.construct failEngine optsGood demoState).1
          = Except.error (JsErr.error failEngine.errMsg)
        ∧ (Decoder.construct failEngine optsGood demoState).2.1.heap.allocated
            = demoState.heap.allocated
        ∧ (Decoder.construct failEngine optsGood demoState).2.1.modes = demoState.modes
        ∧ (Decoder.construct failEngine optsGood demoState).2.1.coders = demoState.coders)
      ∧ ((Encoder.construct failEngine optsGood demoState).1
          = Except.error (JsErr.error failEngine.errMsg)
        ∧ (Encoder.construct failEngine optsGood demoState).2.1.heap.allocated
            = demoState.heap.allocated
        ∧ (Encoder.construct failEngine optsGood demoState).2.1.modes = demoState.modes
        ∧ (Encoder.construct failEngine optsGood demoState).2.1.coders = demoState.coders)) :=
  ⟨by decide, by decide, by decide, by decide, by decide,
   construct_cleanup_on_handle_failure failEngine optsGood demoState
     (by decide) (by decide) (by decide) (by decide) (by decide)⟩

/-- C7: the transform loop of the stream adapters is one-to-one and
order-preserving: if the session operation succeeds on every chunk of the
inbound sequence (producing `results`), the adapter emits exactly those
outputs, in input order, one per chunk, and reports no error - there is no
buffering or batching across chunks. -/
theorem stream_one_output_per_chunk {α β : Type} (op : α → Except JsErr β)
    (chunks : List α) (results : List β)
    (h : chunks.map op = results.map Except.ok) :
    runTransform op chunks = (results, none) := by
  induction chunks generalizing results with
  | nil =>
    cases results with
    | nil => rfl
    | cons r rs => simp at h
  | cons c cs ih =>
    cases results with
    | nil => simp at h
    | cons r rs =>
      simp only [List.map_cons, List.cons.injEq] at h
      simp only [runTransform, h.1]
      rw [ih rs h.2]

/-- C7 witness: two chunks through the decoder stream operation over the
demo engine produce exactly two output frames, in order, with no error. -/
theorem stream_one_output_per_chunk_witness :
    [[5], [6]].map demoStreamOp = [[0, 0], [0, 0]].map Except.ok
    ∧ runTransform demoStreamOp [[5], [6]] = ([[0, 0], [0, 0]], none) :=
  ⟨by rfl,
   stream_one_output_per_chunk demoStreamOp [[5], [6]] [[0, 0], [0, 0]] (by rfl)⟩

/-- C10: the constructors perform no wrapper-side validation of `frameSize`:
for any `frameSize` (zero, negative, or out of the recommended range), as
long as channels ≥ 1 and the rate is even and in [32000, 96000], validation
passes (no configuration error) and the first engine call is
`_celt_mode_create(rate, frameSize)` with the `frameSize` value passed
unchanged - for both `Encoder` and `Decoder`. -/
theorem construct_ignores_frameSize (eng : Engine) (opts : Opts)
    (st : NativeState) (hc : 1 ≤ opts.channels) (hr1 : 32000 ≤ opts.rate)
    (hr2 : opts.rate ≤ 96000) (hr3 : opts.rate % 2 = 0) :
    Decoder.validate opts = none ∧ Encoder.validate opts = none
    ∧ (Decoder.construct eng opts st).2.2.head?
        = some (EngCall.modeCreate opts.rate opts.frameSize)
    ∧ (Encoder.construct eng opts st).2.2.head?
        = some (EngCall.modeCreate opts.rate opts.frameSize) := by
  have hvD : Decoder.validate opts = none := by
    unfold Decoder.validate
    rw [if_neg (by omega), if_neg (by omega), if_neg (fun hn => hn hr3)]
  have hvE : Encoder.validate opts = none := by
    unfold Encoder.validate
    rw [if_neg (by omega), if_neg (by omega), if_neg (fun hn => hn hr3)]
  refine ⟨hvD, hvE, ?_, ?_⟩
  · by_cases hm : eng.modeCreate opts.rate opts.frameSize = 0
    · simp [Decoder.construct, hvD, hm]
    · by_cases hd : eng.decoderCreate (eng.modeCreate opts.rate opts.frameSize) opts.channels = 0
      · simp [Decoder.construct, hvD, hm, hd]
      · simp [Decoder.construct, hvD, hm, hd]
  · by_cases hm : eng.modeCreate opts.rate opts.frameSize = 0
    · simp [Encoder.construct, hvE, hm]
    · by_cases he : eng.encoderCreate (eng.modeCreate opts.rate opts.frameSize) opts.channels = 0
      · simp [Encoder.construct, hvE, hm, he]
      · simp [Encoder.construct, hvE, hm, he]

/-- C10 witness: a negative frameSize of -7 with valid channels and rate
raises no configuration error and reaches `_celt_mode_create` unchanged. -/
theorem construct_ignores_frameSize_witness :
    (1 ≤ optsOddFrameSize.channels ∧ 32000 ≤ optsOddFrameSize.rate
      ∧ optsOddFrameSize.rate ≤ 96000 ∧ optsOddFrameSize.rate % 2 = 0)
    ∧ (Decoder.validate optsOddFrameSize = none ∧ Encoder.validate optsOddFrameSize = none
      ∧ (Decoder.construct demoEngine optsOddFrameSize demoState).2.2.head?
          = some (EngCall.modeCreate optsOddFrameSize.rate optsOddFrameSize.frameSize)
      ∧ (Encoder.construct demoEngine optsOddFrameSize demoState).2.2.head?
          = some (EngCall.modeCreate optsOddFrameSize.rate optsOddFrameSize.frameSize)) :=
  ⟨⟨by decide, by decide, by decide, by decide⟩,
   construct_ignores_frameSize demoEngine optsOddFrameSize demoState
     (by decide) (by decide) (by decide) (by decide)⟩
